import Mathlib

/-!
# certgen: configuration, serial allocation and write flows

A shallow embedding of `pkg/openshift/certgen/config.go` and of the checks made by
`pkg/openshift/certgen/config_test.go`, with the properties proved about them.

Conventions of the embedding:

* a Go `error` is an `Option`: `none` is `nil`;
* a Go `int64` is an `Int` kept in range by `wrap64` (Go's signed arithmetic wraps);
* the phases called by `WriteMaster` and `WriteNode` (`WriteMasterCerts`, ...) are
  methods defined in other files of the package; they are a parameter of the
  embedding, a `Behaviour`: an arbitrary state transformer that may return an error;
* every phase call is recorded in a call trace, so that the order of calls is observable.
-/

namespace Certgen

/-! ## The serial counter (`serial`, `serial.Get`) -/

/-- Two's-complement reduction of an integer to the `int64` range, as Go's `int64`
arithmetic does on overflow. -/
def wrap64 (x : Int) : Int :=
  (x + 2 ^ 63) % 2 ^ 64 - 2 ^ 63

/-- The `serial` struct: the mutex carries no data, `i` is the `int64` counter. -/
structure serial where
  i : Int
  deriving DecidableEq

/-- The zero value of `serial`, as found in a `Config` built by `NewConfig`. -/
def serial.zero : serial :=
  { i := 0 }

/-- `serial.Get`: under the lock, `s.i++` then `big.NewInt(s.i)`. The returned
`big.Int` is the new counter value; the updated counter is returned next to it. -/
def serial.Get (s : serial) : Int × serial :=
  let i := wrap64 (s.i + 1)
  (i, { i := i })

/-- The values returned by `n` successive calls of `Get`, in call order, starting on
the counter `s`. -/
def serial.calls : Nat → serial → List Int
  | 0, _ => []
  | n + 1, s => (serial.Get s).1 :: serial.calls n (serial.Get s).2

/-! ## The configuration (`Config`, `Master`, `AzureConfig`, `NewConfig`) -/

/-- A `net.IP`: a byte slice, `nil` (the empty list) for an address that does not parse. -/
abbrev IP := List Nat

/-- The part of `api.MasterProfile` that `NewConfig` reads. -/
structure api.MasterProfile where
  FirstConsecutiveStaticIP : String
  deriving DecidableEq

/-- The part of `api.OpenShiftConfig` that `NewConfig` reads. -/
structure api.OpenShiftConfig where
  ClusterUsername : String
  ClusterPassword : String
  deriving DecidableEq

/-- The part of `api.OrchestratorProfile` that `NewConfig` reads; the field is a pointer. -/
structure api.OrchestratorProfile where
  OpenShiftConfig : Option api.OpenShiftConfig
  deriving DecidableEq

/-- The part of `api.AzProfile` that `NewConfig` reads. -/
structure api.AzProfile where
  TenantID : String
  SubscriptionID : String
  ResourceGroup : String
  Location : String
  deriving DecidableEq

/-- The part of `api.ServicePrincipalProfile` that `NewConfig` reads. -/
structure api.ServicePrincipalProfile where
  ClientID : String
  Secret : String
  deriving DecidableEq

/-- The part of `api.Properties` that `NewConfig` reads. Every profile is a pointer:
`none` is the nil pointer. -/
structure api.Properties where
  MasterProfile : Option api.MasterProfile
  OrchestratorProfile : Option api.OrchestratorProfile
  AzProfile : Option api.AzProfile
  ServicePrincipalProfile : Option api.ServicePrincipalProfile
  deriving DecidableEq

/-- `AzureConfig` represents the azure.conf configuration. -/
structure AzureConfig where
  TenantID : String
  SubscriptionID : String
  AADClientID : String
  AADClientSecret : String
  ResourceGroup : String
  Location : String
  deriving DecidableEq

/-- `Master` represents an OpenShift master configuration. `X` stands for `CertAndKey` and
`K` for `KubeConfig`; a Go map is an association list and the nil map is the empty list.
`Port` is an `int16`. -/
structure Master (X K : Type) where
  Hostname : String
  IPs : List IP
  Port : Int
  certs : List (String × X)
  etcdcerts : List (String × X)
  kubeconfigs : List (String × K)
  deriving DecidableEq

/-- `Config` represents an OpenShift configuration. `templates` is the empty struct
`templates{}`; `Master` is a pointer; `Bootstrap` is a `KubeConfig` value. -/
structure Config (X K : Type) where
  templates : Unit
  ExternalMasterHostname : String
  serial : serial
  cas : List (String × X)
  AuthSecret : String
  EncSecret : String
  Master : Option (Master X K)
  Bootstrap : K
  ClusterUsername : String
  ClusterPassword : String
  AzureConfig : AzureConfig
  deriving DecidableEq

/-- `NewConfig` returns a `Config` that holds OpenShift data. `ParseIP` is `net.ParseIP` and
`zeroKubeConfig` the zero value of `KubeConfig`, both defined outside this file. Reading a
field through a nil profile pointer panics: that is the result `none`. Fields that the
composite literal does not mention take their zero value. -/
def NewConfig {X K : Type} (ParseIP : String → IP) (zeroKubeConfig : K) (a : api.Properties)
    (masterHostname : String) (masterExternalHostname : String) : Option (Config X K) :=
  match a.MasterProfile, a.OrchestratorProfile, a.AzProfile, a.ServicePrincipalProfile with
  | some mp, some op, some az, some sp =>
    match op.OpenShiftConfig with
    | some oc =>
      some
        { templates := ()
          Master := some
            { Hostname := masterHostname
              IPs := [ParseIP mp.FirstConsecutiveStaticIP]
              Port := 8443
              certs := []
              etcdcerts := []
              kubeconfigs := [] }
          ExternalMasterHostname := masterExternalHostname
          ClusterUsername := oc.ClusterUsername
          ClusterPassword := oc.ClusterPassword
          AzureConfig :=
            { TenantID := az.TenantID
              SubscriptionID := az.SubscriptionID
              AADClientID := sp.ClientID
              AADClientSecret := sp.Secret
              ResourceGroup := az.ResourceGroup
              Location := az.Location }
          serial := { i := 0 }
          cas := []
          AuthSecret := ""
          EncSecret := ""
          Bootstrap := zeroKubeConfig }
    | none => none
  | _, _, _, _ => none

/-! ## The write flows (`Config.WriteMaster`, `Config.WriteNode`) -/

/-- The phase methods of `Config`: the four `Prepare*` methods (in-memory) and the seven
`Write*` methods that `WriteMaster`, `WriteNode` and the test call. -/
inductive Phase where
  | PrepareMasterCerts
  | PrepareMasterKubeConfigs
  | PrepareMasterFiles
  | PrepareBootstrapKubeConfig
  | WriteMasterCerts
  | WriteMasterKeypair
  | WriteMasterKubeConfigs
  | WriteMasterFiles
  | WriteBootstrapCerts
  | WriteBootstrapKubeConfig
  | WriteNodeFiles
  deriving DecidableEq

/-- The in-memory phases. -/
def Phase.isPrepare : Phase → Bool
  | .PrepareMasterCerts => true
  | .PrepareMasterKubeConfigs => true
  | .PrepareMasterFiles => true
  | .PrepareBootstrapKubeConfig => true
  | _ => false

/-- What the phase methods do: each takes the state `σ` (the filesystem, and whatever else
the method can reach) to a new state and returns an error (`none` is `nil`). The methods are
defined in other files of the package, so their behaviour is arbitrary here. -/
abbrev Behaviour (σ ε : Type) := Phase → σ → σ × Option ε

/-- The state threaded through a flow, with the trace of the phase calls made so far. -/
structure World (σ : Type) where
  state : σ
  calls : List Phase
  deriving DecidableEq

/-- One phase call `err := c.P(fs)`: the call is recorded and the phase runs. -/
def invoke {σ ε : Type} (B : Behaviour σ ε) (p : Phase) (w : World σ) : World σ × Option ε :=
  let r := B p w.state
  ({ state := r.1, calls := w.calls ++ [p] }, r.2)

/-- `WriteMaster` writes the config files for a Master node to a Filesystem. -/
def WriteMaster {σ ε : Type} (B : Behaviour σ ε) (fs : σ) : World σ × Option ε :=
  match invoke B .WriteMasterCerts { state := fs, calls := [] } with
  | (w1, some err) => (w1, some err)
  | (w1, none) =>
    match invoke B .WriteMasterKeypair w1 with
    | (w2, some err) => (w2, some err)
    | (w2, none) =>
      match invoke B .WriteMasterKubeConfigs w2 with
      | (w3, some err) => (w3, some err)
      | (w3, none) =>
        match invoke B .WriteMasterFiles w3 with
        | (w4, some err) => (w4, some err)
        | (w4, none) =>
          match invoke B .WriteBootstrapCerts w4 with
          | (w5, some err) => (w5, some err)
          | (w5, none) => invoke B .WriteNodeFiles w5

/-- `WriteNode` writes the config files for bootstrapping a node to a Filesystem. -/
def WriteNode {σ ε : Type} (B : Behaviour σ ε) (fs : σ) : World σ × Option ε :=
  match invoke B .WriteBootstrapCerts { state := fs, calls := [] } with
  | (w1, some err) => (w1, some err)
  | (w1, none) =>
    match invoke B .WriteBootstrapKubeConfig w1 with
    | (w2, some err) => (w2, some err)
    | (w2, none) => invoke B .WriteNodeFiles w2

/-! ### Vocabulary for stating properties of the flows -/

/-- The phase calls written in the body of `WriteMaster`, top to bottom. -/
def masterFlow : List Phase :=
  [.WriteMasterCerts, .WriteMasterKeypair, .WriteMasterKubeConfigs, .WriteMasterFiles,
    .WriteBootstrapCerts, .WriteNodeFiles]

/-- The phase calls written in the body of `WriteNode`, top to bottom. -/
def nodeFlow : List Phase :=
  [.WriteBootstrapCerts, .WriteBootstrapKubeConfig, .WriteNodeFiles]

/-- The master flow in the words of the specification:
`MaterializeCatalog → BuildAccessBundles → RenderStaticFiles → WriteCertificates →
WriteAccessBundles → WriteStaticFiles → WriteBootstrapCertificates → WriteNodeFiles`,
each name replaced by the method of `Config` that does that work. -/
def specMasterFlow : List Phase :=
  [.PrepareMasterCerts, .PrepareMasterKubeConfigs, .PrepareMasterFiles, .WriteMasterCerts,
    .WriteMasterKubeConfigs, .WriteMasterFiles, .WriteBootstrapCerts, .WriteNodeFiles]

/-- The state reached by running the phases of `ps` one after the other from `s`,
whatever they return. -/
def stateAfter {σ ε : Type} (B : Behaviour σ ε) : List Phase → σ → σ
  | [], s => s
  | p :: ps, s => stateAfter B ps (B p s).1

/-- What phase number `k` of `flow` (counted from 0) returns when it runs on the state
left by the phases before it; `none` also when the flow has no phase `k`. -/
def errAt {σ ε : Type} (B : Behaviour σ ε) (flow : List Phase) (s : σ) (k : Nat) : Option ε :=
  match flow[k]? with
  | some p => (B p (stateAfter B (flow.take k) s)).2
  | none => none

/-- A list of phase calls run with the early return of the flows: the first error ends
the run. Used to reason on `WriteMaster` and `WriteNode`, which are shown equal to it. -/
def runFlow {σ ε : Type} (B : Behaviour σ ε) : List Phase → World σ → World σ × Option ε
  | [], w => (w, none)
  | p :: ps, w =>
    match invoke B p w with
    | (w1, some err) => (w1, some err)
    | (w1, none) => runFlow B ps w1

/-- An example behaviour on a filesystem that lists the phases that wrote to it: every phase
writes and succeeds. -/
def okBehaviour : Behaviour (List Phase) String :=
  fun p fs => (fs ++ [p], none)

/-- An example behaviour on the same filesystem: every phase writes, and the phase `bad`
then fails with the error `"write failed"`. -/
def failingBehaviour (bad : Phase) : Behaviour (List Phase) String :=
  fun p fs => (fs ++ [p], if p = bad then some "write failed" else none)

/-! ## The checks of `TestConfigFilePermissions` -/

/-- `strings.Contains` on lists of characters. -/
def containsChars (sub : List Char) : List Char → Bool
  | [] => sub.isEmpty
  | c :: cs => sub.isPrefixOf (c :: cs) || containsChars sub cs

/-- `strings.Contains(s, substr)`. -/
def strings_Contains (s substr : String) : Bool :=
  containsChars substr.data s.data

/-- `regexp.MustCompile("tmp$").MatchString(fname)`: the pattern is not anchored on the
left and `$` matches at the end of the text only, so the name ends in `tmp`. -/
def matchTmp (fname : String) : Bool :=
  "tmp".data.isSuffixOf fname.data

/-- The key-file check of the test loop, `true` when `t.Errorf` is called:
`strings.Contains(fname, ".key") && fsdata[fname].mode&(1<<2) != 0 &&
fsdata[fname].mode&(1<<3) != 0`, on the file name and its recorded mode. -/
def keyFileCheckReports (fname : String) (mode : Nat) : Bool :=
  strings_Contains fname ".key" && (mode &&& (1 <<< 2) != 0) && (mode &&& (1 <<< 3) != 0)

/-- The scratch-directory check of the test loop, `true` when `t.Errorf` is called:
`regexp.MustCompile("tmp$").MatchString(fname) && fi.Mode != os.FileMode(1770)`, on the
file name and the mode declared by `GetFileInfo`. The literal `1770` is decimal. -/
def tmpCheckReports (fname : String) (fiMode : Nat) : Bool :=
  matchTmp fname && (fiMode != 1770)

/-! ## The Secure Artifact Writer -/

/-- Modelled from the spec: the Artifact Descriptor, whose declaration is not in `config.go`:
a (path, content-bytes, owner, group, mode) tuple staged for persistence. -/
structure ArtifactDescriptor where
  path : String
  content : List Nat
  owner : String
  group : String
  mode : Nat
  deriving DecidableEq

/-- Modelled from the spec: the errors of a write, whose declaration is not in `config.go`:
the writer's own refusal (`InsecurePermissionError`), or the underlying `WriteError` of the
filesystem collaborator. -/
inductive WriteFailure (ε : Type) where
  | InsecurePermissionError
  | WriteError (e : ε)
  deriving DecidableEq

/-- Modelled from the spec: the Secure Artifact Writer's `write(descriptor)`, whose code is
not in `config.go` (the `Write*` phase methods and the writer they call are defined
elsewhere). An artifact classified as key material (`keyMaterial`) whose mode grants a read
or write bit to group or other is rejected with `InsecurePermissionError` and does not reach
the filesystem collaborator; any other artifact is delegated to the collaborator, whose
answer (`respond`, which may depend on the requests received so far) is returned. The state
is the list of the requests the collaborator received, oldest first. -/
def secureWrite {ε : Type} (keyMaterial : ArtifactDescriptor → Bool)
    (respond : List ArtifactDescriptor → ArtifactDescriptor → Option ε)
    (d : ArtifactDescriptor) (received : List ArtifactDescriptor) :
    List ArtifactDescriptor × Option (WriteFailure ε) :=
  if keyMaterial d && (d.mode &&& 0o066 != 0) then
    (received, some .InsecurePermissionError)
  else
    (received ++ [d], (respond received d).map .WriteError)

/-- Modelled from the spec: a `Write*` phase, whose code is not in `config.go`. The phase
maps records to artifact descriptors (`ds`) and calls the Secure Artifact Writer on each in
turn; the first failure ends the phase. -/
def writeArtifacts {ε : Type} (keyMaterial : ArtifactDescriptor → Bool)
    (respond : List ArtifactDescriptor → ArtifactDescriptor → Option ε) :
    List ArtifactDescriptor → List ArtifactDescriptor →
      List ArtifactDescriptor × Option (WriteFailure ε)
  | [], received => (received, none)
  | d :: ds, received =>
    match secureWrite keyMaterial respond d received with
    | (received1, some err) => (received1, some err)
    | (received1, none) => writeArtifacts keyMaterial respond ds received1

/-- Modelled from the spec: the behaviour of the phase methods when each is a `Write*`
phase over the Secure Artifact Writer; `artifacts p` are the descriptors phase `p` writes. -/
def writerBehaviour {ε : Type} (keyMaterial : ArtifactDescriptor → Bool)
    (respond : List ArtifactDescriptor → ArtifactDescriptor → Option ε)
    (artifacts : Phase → List ArtifactDescriptor) :
    Behaviour (List ArtifactDescriptor) (WriteFailure ε) :=
  fun p received => writeArtifacts keyMaterial respond (artifacts p) received

/-- An example classification of key material, by path: a private-key file (the path
contains `.key`) or a kubeconfig file, which embeds a private key (the path contains
`kubeconfig`). -/
def keyMaterialByPath (d : ArtifactDescriptor) : Bool :=
  strings_Contains d.path ".key" || strings_Contains d.path "kubeconfig"

/-! ## Example inputs -/

/-- Example artifacts: the master certificate phase writes the CA certificate and its key,
the kubeconfig phase an administrator kubeconfig, the bootstrap phases a certificate, a key
and a kubeconfig; the other phases write nothing. -/
def exampleArtifacts : Phase → List ArtifactDescriptor
  | .WriteMasterCerts =>
    [{ path := "etc/origin/master/ca.crt", content := [], owner := "root", group := "root",
       mode := 0o644 },
     { path := "etc/origin/master/ca.key", content := [], owner := "root", group := "root",
       mode := 0o600 }]
  | .WriteMasterKubeConfigs =>
    [{ path := "etc/origin/master/admin.kubeconfig", content := [], owner := "root",
       group := "root", mode := 0o600 }]
  | .WriteBootstrapCerts =>
    [{ path := "etc/origin/node/bootstrap.crt", content := [], owner := "root",
       group := "root", mode := 0o644 },
     { path := "etc/origin/node/bootstrap.key", content := [], owner := "root",
       group := "root", mode := 0o600 }]
  | .WriteBootstrapKubeConfig =>
    [{ path := "etc/origin/node/bootstrap.kubeconfig", content := [], owner := "root",
       group := "root", mode := 0o600 }]
  | _ => []

/-- An example filesystem collaborator that accepts every request. -/
def exampleRespond : List ArtifactDescriptor → ArtifactDescriptor → Option String :=
  fun _ _ => none

/-- An example `net.ParseIP` result: every string parses to 10.0.0.1. -/
def exampleParseIP : String → IP :=
  fun _ => [10, 0, 0, 1]

/-- Example cluster properties with every profile present. -/
def exampleProperties : api.Properties :=
  { MasterProfile := some { FirstConsecutiveStaticIP := "10.0.0.1" }
    OrchestratorProfile := some
      { OpenShiftConfig := some { ClusterUsername := "admin", ClusterPassword := "secret" } }
    AzProfile := some
      { TenantID := "tenant", SubscriptionID := "sub", ResourceGroup := "rg",
        Location := "eastus" }
    ServicePrincipalProfile := some { ClientID := "client", Secret := "spsecret" } }

/-! ### Lemmas on the serial counter -/

theorem wrap64_of_range (x : Int) (h0 : -(2 ^ 63) ≤ x) (h1 : x < 2 ^ 63) : wrap64 x = x := by
  unfold wrap64
  omega

theorem calls_length (n : Nat) (s : serial) : (serial.calls n s).length = n := by
  induction n generalizing s with
  | zero => rfl
  | succ n ih => simp [serial.calls, ih]

theorem calls_getElem? (n : Nat) (s : serial) (k : Nat) (hk : k < n) :
    (serial.calls n s)[k]? = some (wrap64 (s.i + (k : Int) + 1)) := by
  induction n generalizing s k with
  | zero => omega
  | succ n ih =>
    cases k with
    | zero => simp [serial.calls, serial.Get]
    | succ k =>
      have hk' : k < n := by omega
      simp only [serial.calls, List.getElem?_cons_succ]
      rw [ih _ k hk']
      simp only [serial.Get]
      congr 1
      unfold wrap64
      push_cast
      omega

theorem calls_zero_getElem? (n k : Nat) (hk : k < n) (hn : n < 2 ^ 63) :
    (serial.calls n serial.zero)[k]? = some ((k : Int) + 1) := by
  rw [calls_getElem? n serial.zero k hk]
  have hk2 : (k : Int) < 2 ^ 63 - 1 := by
    have : (k : Int) < (n : Int) := by exact_mod_cast hk
    have : (n : Int) < 2 ^ 63 := by exact_mod_cast hn
    omega
  simp only [serial.zero, zero_add]
  rw [wrap64_of_range _ (by omega) (by omega)]

theorem calls_zero_mem (n : Nat) (hn : n < 2 ^ 63) (v : Int)
    (hv : v ∈ serial.calls n serial.zero) : ∃ k : Nat, k < n ∧ v = (k : Int) + 1 := by
  obtain ⟨k, hk, hkv⟩ := List.getElem_of_mem hv
  have hkn : k < n := by simpa [calls_length] using hk
  refine ⟨k, hkn, ?_⟩
  have h := calls_zero_getElem? n k hkn hn
  rw [List.getElem?_eq_getElem hk] at h
  rw [← hkv]
  exact Option.some.inj h

/-! ### Lemmas on the flows -/

theorem errAt_cons_zero {σ ε : Type} (B : Behaviour σ ε) (p : Phase) (ps : List Phase) (s : σ) :
    errAt B (p :: ps) s 0 = (B p s).2 := by
  simp [errAt, stateAfter]

theorem errAt_cons_succ {σ ε : Type} (B : Behaviour σ ε) (p : Phase) (ps : List Phase) (s : σ)
    (k : Nat) : errAt B (p :: ps) s (k + 1) = errAt B ps (B p s).1 k := by
  simp [errAt, stateAfter]

theorem runFlow_cons_none {σ ε : Type} (B : Behaviour σ ε) (p : Phase) (ps : List Phase)
    (w : World σ) (h : (B p w.state).2 = none) :
    runFlow B (p :: ps) w
      = runFlow B ps { state := (B p w.state).1, calls := w.calls ++ [p] } := by
  simp [runFlow, invoke, h]

theorem runFlow_cons_some {σ ε : Type} (B : Behaviour σ ε) (p : Phase) (ps : List Phase)
    (w : World σ) (e : ε) (h : (B p w.state).2 = some e) :
    runFlow B (p :: ps) w
      = ({ state := (B p w.state).1, calls := w.calls ++ [p] }, some e) := by
  simp [runFlow, invoke, h]

theorem runFlow_all_succeed {σ ε : Type} (B : Behaviour σ ε) (fl : List Phase) (w : World σ)
    (h : ∀ k, k < fl.length → errAt B fl w.state k = none) :
    runFlow B fl w = ({ state := stateAfter B fl w.state, calls := w.calls ++ fl }, none) := by
  induction fl generalizing w with
  | nil => simp [runFlow, stateAfter]
  | cons p ps ih =>
    have h0 : (B p w.state).2 = none := by
      have := h 0 (by simp)
      rwa [errAt_cons_zero] at this
    rw [runFlow_cons_none B p ps w h0, ih]
    · simp [stateAfter]
    · intro k hk
      have := h (k + 1) (by simpa using hk)
      rwa [errAt_cons_succ] at this

theorem runFlow_first_failure {σ ε : Type} (B : Behaviour σ ε) (fl : List Phase) (w : World σ)
    (k : Nat) (e : ε) (hk : k < fl.length)
    (hbefore : ∀ j, j < k → errAt B fl w.state j = none)
    (hfail : errAt B fl w.state k = some e) :
    runFlow B fl w
      = ({ state := stateAfter B (fl.take (k + 1)) w.state,
           calls := w.calls ++ fl.take (k + 1) }, some e) := by
  induction fl generalizing w k with
  | nil => simp at hk
  | cons p ps ih =>
    cases k with
    | zero =>
      rw [errAt_cons_zero] at hfail
      rw [runFlow_cons_some B p ps w e hfail]
      simp [stateAfter]
    | succ k =>
      have h0 : (B p w.state).2 = none := by
        have := hbefore 0 (by omega)
        rwa [errAt_cons_zero] at this
      rw [errAt_cons_succ] at hfail
      rw [runFlow_cons_none B p ps w h0, ih _ k (by simpa using hk) _ hfail]
      · simp [stateAfter]
      · intro j hj
        have := hbefore (j + 1) (by omega)
        rwa [errAt_cons_succ] at this

theorem runFlow_none_all_succeed {σ ε : Type} (B : Behaviour σ ε) (fl : List Phase)
    (w : World σ) (h : (runFlow B fl w).2 = none) :
    ∀ k, k < fl.length → errAt B fl w.state k = none := by
  induction fl generalizing w with
  | nil => intro k hk; simp at hk
  | cons p ps ih =>
    cases h0 : (B p w.state).2 with
    | some e =>
      rw [runFlow_cons_some B p ps w e h0] at h
      simp at h
    | none =>
      rw [runFlow_cons_none B p ps w h0] at h
      intro k hk
      cases k with
      | zero => rw [errAt_cons_zero]; exact h0
      | succ k =>
        rw [errAt_cons_succ]
        exact ih _ h k (by simpa using hk)

theorem runFlow_calls {σ ε : Type} (B : Behaviour σ ε) (fl : List Phase) (w : World σ) :
    ∃ j, j ≤ fl.length ∧ (runFlow B fl w).1.calls = w.calls ++ fl.take j ∧
      (runFlow B fl w).1.state = stateAfter B (fl.take j) w.state ∧
      ((runFlow B fl w).2 = none → j = fl.length) := by
  induction fl generalizing w with
  | nil => exact ⟨0, by simp [runFlow, stateAfter]⟩
  | cons p ps ih =>
    cases h0 : (B p w.state).2 with
    | some e =>
      refine ⟨1, by simp, ?_⟩
      rw [runFlow_cons_some B p ps w e h0]
      simp [stateAfter]
    | none =>
      obtain ⟨j, hj, hc, hs, hn⟩ := ih { state := (B p w.state).1, calls := w.calls ++ [p] }
      refine ⟨j + 1, by simpa using hj, ?_⟩
      rw [runFlow_cons_none B p ps w h0]
      refine ⟨by simp [hc], by simp [hs, stateAfter], ?_⟩
      intro h
      simp [hn h]

theorem WriteMaster_eq_runFlow {σ ε : Type} (B : Behaviour σ ε) (s : σ) :
    WriteMaster B s = runFlow B masterFlow { state := s, calls := [] } := by
  simp only [WriteMaster, masterFlow, runFlow]
  repeat' split
  all_goals simp_all

theorem WriteNode_eq_runFlow {σ ε : Type} (B : Behaviour σ ε) (s : σ) :
    WriteNode B s = runFlow B nodeFlow { state := s, calls := [] } := by
  simp only [WriteNode, nodeFlow, runFlow]
  repeat' split
  all_goals simp_all

/-! ### Lemmas on the Secure Artifact Writer -/

theorem secureWrite_received {ε : Type} (keyMaterial : ArtifactDescriptor → Bool)
    (respond : List ArtifactDescriptor → ArtifactDescriptor → Option ε)
    (x : ArtifactDescriptor) (received : List ArtifactDescriptor)
    (h : ∀ d, d ∈ received → keyMaterial d = true → d.mode &&& 0o066 = 0) :
    ∀ d, d ∈ (secureWrite keyMaterial respond x received).1 →
      keyMaterial d = true → d.mode &&& 0o066 = 0 := by
  intro d hd hkm
  unfold secureWrite at hd
  split at hd
  · exact h d hd hkm
  · rename_i hcond
    simp only [List.mem_append, List.mem_singleton] at hd
    rcases hd with hd | rfl
    · exact h d hd hkm
    · by_contra hne
      apply hcond
      simp [hkm, hne]

theorem writeArtifacts_received {ε : Type} (keyMaterial : ArtifactDescriptor → Bool)
    (respond : List ArtifactDescriptor → ArtifactDescriptor → Option ε)
    (ds : List ArtifactDescriptor) (received : List ArtifactDescriptor)
    (h : ∀ d, d ∈ received → keyMaterial d = true → d.mode &&& 0o066 = 0) :
    ∀ d, d ∈ (writeArtifacts keyMaterial respond ds received).1 →
      keyMaterial d = true → d.mode &&& 0o066 = 0 := by
  induction ds generalizing received with
  | nil => simpa [writeArtifacts] using h
  | cons x xs ih =>
    have hx := secureWrite_received keyMaterial respond x received h
    unfold writeArtifacts
    split
    · rename_i r1 err heq
      rw [heq] at hx
      exact hx
    · rename_i r1 heq
      rw [heq] at hx
      exact ih r1 hx

theorem stateAfter_invariant {σ ε : Type} (B : Behaviour σ ε) (Inv : σ → Prop)
    (hstep : ∀ p s, Inv s → Inv (B p s).1) (ps : List Phase) (s : σ) (h : Inv s) :
    Inv (stateAfter B ps s) := by
  induction ps generalizing s with
  | nil => simpa [stateAfter] using h
  | cons p ps ih =>
    simp only [stateAfter]
    exact ih (B p s).1 (hstep p s h)

theorem runFlow_state_invariant {σ ε : Type} (B : Behaviour σ ε) (Inv : σ → Prop)
    (hstep : ∀ p s, Inv s → Inv (B p s).1) (fl : List Phase) (w : World σ)
    (h : Inv w.state) : Inv (runFlow B fl w).1.state := by
  obtain ⟨j, _, _, hs, _⟩ := runFlow_calls B fl w
  rw [hs]
  exact stateAfter_invariant B Inv hstep (fl.take j) w.state h

/-! ## Theorems -/

/-- C1 as stated fails: on a zero-initialised counter the call number `2^63` of `serial.Get`
returns `-2^63` (the `int64` counter wraps), which is neither `2^63` nor positive; so
`2^63` successive calls do not return only positive values, and not `k` at call `k`. -/
theorem serial_get_wraps_at_two_pow_63 :
    (serial.calls (2 ^ 63) serial.zero)[2 ^ 63 - 1]? = some (-(2 ^ 63 : Int)) ∧
    ¬ (∀ v ∈ serial.calls (2 ^ 63) serial.zero, 0 < v) ∧
    ¬ (∀ k : Nat, k < 2 ^ 63 →
        (serial.calls (2 ^ 63) serial.zero)[k]? = some ((k : Int) + 1)) := by
  have h : (serial.calls (2 ^ 63) serial.zero)[2 ^ 63 - 1]? = some (-(2 ^ 63 : Int)) := by
    rw [calls_getElem? (2 ^ 63) serial.zero (2 ^ 63 - 1) (by norm_num)]
    simp only [serial.zero, wrap64]
    norm_num
  refine ⟨h, ?_, ?_⟩
  · intro hpos
    have hmem := List.getElem?_mem h
    have := hpos _ hmem
    norm_num at this
  · intro hall
    have h2 := hall (2 ^ 63 - 1) (by norm_num)
    rw [h] at h2
    have h3 := Option.some.inj h2
    norm_num at h3

/-- C1 (amended): for every `N` with `1 ≤ N < 2^63`, `N` successive calls of `serial.Get` on a
zero-initialised counter return `N` values, the `k`-th call (counted from 1) returning
exactly `k`; the values are all strictly positive, strictly increasing in call order and
pairwise distinct. -/
theorem serial_get_sequence (N : Nat) (_h1 : 1 ≤ N) (hN : N < 2 ^ 63) :
    (serial.calls N serial.zero).length = N ∧
    (∀ k : Nat, k < N → (serial.calls N serial.zero)[k]? = some ((k : Int) + 1)) ∧
    (∀ v ∈ serial.calls N serial.zero, 0 < v) ∧
    (serial.calls N serial.zero).Pairwise (fun a b => a < b) ∧
    (serial.calls N serial.zero).Nodup := by
  have hget := fun k hk => calls_zero_getElem? N k hk hN
  have hpair : (serial.calls N serial.zero).Pairwise (fun a b => a < b) := by
    rw [List.pairwise_iff_getElem]
    intro i j hi hj hij
    have hi' : i < N := by simpa [calls_length] using hi
    have hj' : j < N := by simpa [calls_length] using hj
    have ei := hget i hi'
    have ej := hget j hj'
    rw [List.getElem?_eq_getElem hi] at ei
    rw [List.getElem?_eq_getElem hj] at ej
    rw [Option.some.inj ei, Option.some.inj ej]
    have : (i : Int) < (j : Int) := by exact_mod_cast hij
    omega
  refine ⟨calls_length N _, hget, ?_, hpair, ?_⟩
  · intro v hv
    obtain ⟨k, _, rfl⟩ := calls_zero_mem N hN v hv
    omega
  · exact hpair.imp (fun h => ne_of_lt h)

/-- Witness of C1 (amended): three calls return 1, 2, 3. -/
theorem serial_get_sequence_witness :
    serial.calls 3 serial.zero = [1, 2, 3] ∧
    ((serial.calls 3 serial.zero).length = 3 ∧
    (∀ k : Nat, k < 3 → (serial.calls 3 serial.zero)[k]? = some ((k : Int) + 1)) ∧
    (∀ v ∈ serial.calls 3 serial.zero, 0 < v) ∧
    (serial.calls 3 serial.zero).Pairwise (fun a b => a < b) ∧
    (serial.calls 3 serial.zero).Nodup) :=
  ⟨by decide, serial_get_sequence 3 (by decide) (by norm_num)⟩

/-- C3: `WriteMaster` and `WriteNode` return `nil` exactly when every phase of their flow
returns `nil`, and otherwise return, unchanged, the error of the first phase of the flow (in
flow order) that failed; this for every behaviour of the phases and every initial state. -/
theorem write_flows_return_first_error {σ ε : Type} (B : Behaviour σ ε) (s : σ) :
    (((WriteMaster B s).2 = none ↔
        ∀ k, k < masterFlow.length → errAt B masterFlow s k = none) ∧
      (∀ k e, k < masterFlow.length → (∀ j, j < k → errAt B masterFlow s j = none) →
        errAt B masterFlow s k = some e → (WriteMaster B s).2 = some e)) ∧
    (((WriteNode B s).2 = none ↔
        ∀ k, k < nodeFlow.length → errAt B nodeFlow s k = none) ∧
      (∀ k e, k < nodeFlow.length → (∀ j, j < k → errAt B nodeFlow s j = none) →
        errAt B nodeFlow s k = some e → (WriteNode B s).2 = some e)) := by
  rw [WriteMaster_eq_runFlow, WriteNode_eq_runFlow]
  refine ⟨⟨⟨?_, ?_⟩, ?_⟩, ⟨⟨?_, ?_⟩, ?_⟩⟩
  · exact fun h => runFlow_none_all_succeed B masterFlow _ h
  · intro h
    rw [runFlow_all_succeed B masterFlow _ h]
  · intro k e hk hb hf
    rw [runFlow_first_failure B masterFlow _ k e hk hb hf]
  · exact fun h => runFlow_none_all_succeed B nodeFlow _ h
  · intro h
    rw [runFlow_all_succeed B nodeFlow _ h]
  · intro k e hk hb hf
    rw [runFlow_first_failure B nodeFlow _ k e hk hb hf]

/-- Witness of C3: when `WriteMasterKubeConfigs` (phase 2 of the master flow) is the first
phase to fail, `WriteMaster` returns its error; when `WriteNodeFiles` (phase 2 of the node
flow) is, `WriteNode` returns its error. -/
theorem write_flows_return_first_error_witness :
    (WriteMaster (failingBehaviour .WriteMasterKubeConfigs) []).2 = some "write failed" ∧
    (WriteNode (failingBehaviour .WriteNodeFiles) []).2 = some "write failed" :=
  ⟨(write_flows_return_first_error (failingBehaviour .WriteMasterKubeConfigs) []).1.2
      2 "write failed" (by decide) (by decide) (by decide),
   (write_flows_return_first_error (failingBehaviour .WriteNodeFiles) []).2.2
      2 "write failed" (by decide) (by decide) (by decide)⟩

/-- C4: with the filesystem as explicit state, if phase `k` is the first phase of the flow of
`WriteMaster` (of `WriteNode`) to fail, then the phases called are exactly phases `0..k` of
the flow, so no phase after `k` is invoked, and the state when the call returns is the state
produced by running phases `0..k` in order on the initial state: nothing is undone. -/
theorem write_flows_stop_at_first_failure {σ ε : Type} (B : Behaviour σ ε) (s : σ) :
    (∀ k e, k < masterFlow.length → (∀ j, j < k → errAt B masterFlow s j = none) →
      errAt B masterFlow s k = some e →
        (WriteMaster B s).1.calls = masterFlow.take (k + 1) ∧
        (WriteMaster B s).1.state = stateAfter B (masterFlow.take (k + 1)) s) ∧
    (∀ k e, k < nodeFlow.length → (∀ j, j < k → errAt B nodeFlow s j = none) →
      errAt B nodeFlow s k = some e →
        (WriteNode B s).1.calls = nodeFlow.take (k + 1) ∧
        (WriteNode B s).1.state = stateAfter B (nodeFlow.take (k + 1)) s) := by
  rw [WriteMaster_eq_runFlow, WriteNode_eq_runFlow]
  refine ⟨?_, ?_⟩
  · intro k e hk hb hf
    rw [runFlow_first_failure B masterFlow _ k e hk hb hf]
    simp
  · intro k e hk hb hf
    rw [runFlow_first_failure B nodeFlow _ k e hk hb hf]
    simp

/-- Witness of C4: when `WriteMasterKubeConfigs` fails after writing, `WriteMaster` has called
the first three phases only and the filesystem holds what these three wrote; when
`WriteBootstrapKubeConfig` fails after writing, `WriteNode` has called the first two phases
only and the filesystem holds what these two wrote. -/
theorem write_flows_stop_at_first_failure_witness :
    ((WriteMaster (failingBehaviour .WriteMasterKubeConfigs) []).1.calls
        = [.WriteMasterCerts, .WriteMasterKeypair, .WriteMasterKubeConfigs] ∧
      (WriteMaster (failingBehaviour .WriteMasterKubeConfigs) []).1.state
        = [.WriteMasterCerts, .WriteMasterKeypair, .WriteMasterKubeConfigs]) ∧
    ((WriteNode (failingBehaviour .WriteBootstrapKubeConfig) []).1.calls
        = [.WriteBootstrapCerts, .WriteBootstrapKubeConfig] ∧
      (WriteNode (failingBehaviour .WriteBootstrapKubeConfig) []).1.state
        = [.WriteBootstrapCerts, .WriteBootstrapKubeConfig]) :=
  ⟨(write_flows_stop_at_first_failure (failingBehaviour .WriteMasterKubeConfigs) []).1
      2 "write failed" (by decide) (by decide) (by decide),
   (write_flows_stop_at_first_failure (failingBehaviour .WriteBootstrapKubeConfig) []).2
      1 "write failed" (by decide) (by decide) (by decide)⟩

/-- C5: the phases `WriteNode` invokes are a prefix of `WriteBootstrapCerts`,
`WriteBootstrapKubeConfig`, `WriteNodeFiles`, and the whole list when all three succeed (and
whenever `WriteNode` returns `nil`); `WriteMasterCerts` and `WriteMasterKeypair` are never
invoked; and the final state is the initial state transformed by the invoked phases, in
order, and by nothing else. -/
theorem write_node_calls_bootstrap_phases_only {σ ε : Type} (B : Behaviour σ ε) (s : σ) :
    (∃ j, j ≤ 3 ∧ (WriteNode B s).1.calls =
      [Phase.WriteBootstrapCerts, Phase.WriteBootstrapKubeConfig, Phase.WriteNodeFiles].take j) ∧
    ((∀ k, k < 3 → errAt B nodeFlow s k = none) → (WriteNode B s).1.calls =
      [Phase.WriteBootstrapCerts, Phase.WriteBootstrapKubeConfig, Phase.WriteNodeFiles]) ∧
    ((WriteNode B s).2 = none → (WriteNode B s).1.calls =
      [Phase.WriteBootstrapCerts, Phase.WriteBootstrapKubeConfig, Phase.WriteNodeFiles]) ∧
    Phase.WriteMasterCerts ∉ (WriteNode B s).1.calls ∧
    Phase.WriteMasterKeypair ∉ (WriteNode B s).1.calls ∧
    (WriteNode B s).1.state = stateAfter B (WriteNode B s).1.calls s := by
  obtain ⟨j, hj, hc, hs, hn⟩ := runFlow_calls B nodeFlow { state := s, calls := [] }
  rw [← WriteNode_eq_runFlow] at hc hs hn
  simp only [List.nil_append] at hc
  have hsub : ∀ p, p ∈ (WriteNode B s).1.calls → p ∈ nodeFlow := by
    intro p hp
    rw [hc] at hp
    exact List.mem_of_mem_take hp
  refine ⟨⟨j, hj, hc⟩, ?_, ?_, ?_, ?_, ?_⟩
  · intro h
    rw [WriteNode_eq_runFlow, runFlow_all_succeed B nodeFlow { state := s, calls := [] }
      (fun k hk => h k (by simpa [nodeFlow] using hk))]
    simp [nodeFlow]
  · intro h
    rw [hc, hn h]
    simp [nodeFlow]
  · intro h
    exact absurd (hsub _ h) (by decide)
  · intro h
    exact absurd (hsub _ h) (by decide)
  · rw [hs, hc]

/-- Witness of C5: when all three phases succeed `WriteNode` calls the three of them, and its
final filesystem holds what these three wrote. -/
theorem write_node_calls_bootstrap_phases_only_witness :
    (WriteNode okBehaviour []).1.calls =
      [Phase.WriteBootstrapCerts, Phase.WriteBootstrapKubeConfig, Phase.WriteNodeFiles] ∧
    (WriteNode okBehaviour []).1.state =
      [Phase.WriteBootstrapCerts, Phase.WriteBootstrapKubeConfig, Phase.WriteNodeFiles] :=
  ⟨(write_node_calls_bootstrap_phases_only okBehaviour []).2.1 (by decide), by decide⟩

/-- C6 as stated fails: when every phase succeeds `WriteMaster` calls six phases, not the
eight of the master flow of the specification; none of the in-memory phases
(`PrepareMasterCerts`, `PrepareMasterKubeConfigs`, `PrepareMasterFiles`) is called. -/
theorem write_master_calls_no_prepare_phase :
    (WriteMaster okBehaviour []).2 = none ∧
    (WriteMaster okBehaviour []).1.calls =
      [.WriteMasterCerts, .WriteMasterKeypair, .WriteMasterKubeConfigs, .WriteMasterFiles,
        .WriteBootstrapCerts, .WriteNodeFiles] ∧
    (WriteMaster okBehaviour []).1.calls ≠ specMasterFlow ∧
    Phase.PrepareMasterCerts ∉ (WriteMaster okBehaviour []).1.calls ∧
    Phase.PrepareMasterKubeConfigs ∉ (WriteMaster okBehaviour []).1.calls ∧
    Phase.PrepareMasterFiles ∉ (WriteMaster okBehaviour []).1.calls := by
  decide

/-- C6 (amended): when every phase succeeds, `WriteMaster` executes the strict sequence
`WriteMasterCerts`, `WriteMasterKeypair`, `WriteMasterKubeConfigs`, `WriteMasterFiles`,
`WriteBootstrapCerts`, `WriteNodeFiles`, each exactly once and in that order, and returns
`nil`; under every outcome it calls no in-memory (`Prepare*`) phase. -/
theorem write_master_sequence {σ ε : Type} (B : Behaviour σ ε) (s : σ) :
    ((∀ k, k < 6 → errAt B masterFlow s k = none) →
      (WriteMaster B s).1.calls =
        [Phase.WriteMasterCerts, Phase.WriteMasterKeypair, Phase.WriteMasterKubeConfigs,
          Phase.WriteMasterFiles, Phase.WriteBootstrapCerts, Phase.WriteNodeFiles] ∧
      (WriteMaster B s).2 = none) ∧
    (∀ p, p ∈ (WriteMaster B s).1.calls → p.isPrepare = false) := by
  refine ⟨?_, ?_⟩
  · intro h
    rw [WriteMaster_eq_runFlow, runFlow_all_succeed B masterFlow { state := s, calls := [] }
      (fun k hk => h k (by simpa [masterFlow] using hk))]
    simp [masterFlow]
  · obtain ⟨j, _, hc, _, _⟩ := runFlow_calls B masterFlow { state := s, calls := [] }
    rw [← WriteMaster_eq_runFlow] at hc
    simp only [List.nil_append] at hc
    intro p hp
    rw [hc] at hp
    have hmem : p ∈ masterFlow := List.mem_of_mem_take hp
    have hall : ∀ q, q ∈ masterFlow → q.isPrepare = false := by decide
    exact hall p hmem

/-- Witness of C6 (amended): with phases that all succeed, `WriteMaster` calls the six write
phases in order and returns `nil`. -/
theorem write_master_sequence_witness :
    (WriteMaster okBehaviour []).1.calls =
        [Phase.WriteMasterCerts, Phase.WriteMasterKeypair, Phase.WriteMasterKubeConfigs,
          Phase.WriteMasterFiles, Phase.WriteBootstrapCerts, Phase.WriteNodeFiles] ∧
      (WriteMaster okBehaviour []).2 = none :=
  (write_master_sequence okBehaviour []).1 (by decide)

/-- C2: every write request that `WriteMaster` or `WriteNode` issues to the filesystem
collaborator for key material has a mode that grants no read or write bit to group or
other, whatever the artifacts of the phases, the classification of key material and the
answers of the collaborator; the `Write*` phases are the specification's, over the Secure
Artifact Writer. -/
theorem key_material_requests_are_owner_only {ε : Type}
    (keyMaterial : ArtifactDescriptor → Bool)
    (respond : List ArtifactDescriptor → ArtifactDescriptor → Option ε)
    (artifacts : Phase → List ArtifactDescriptor) :
    (∀ d, d ∈ (WriteMaster (writerBehaviour keyMaterial respond artifacts) []).1.state →
      keyMaterial d = true → d.mode &&& 0o066 = 0) ∧
    (∀ d, d ∈ (WriteNode (writerBehaviour keyMaterial respond artifacts) []).1.state →
      keyMaterial d = true → d.mode &&& 0o066 = 0) := by
  have hstep : ∀ (p : Phase) (s : List ArtifactDescriptor),
      (∀ d, d ∈ s → keyMaterial d = true → d.mode &&& 0o066 = 0) →
      ∀ d, d ∈ (writerBehaviour keyMaterial respond artifacts p s).1 →
        keyMaterial d = true → d.mode &&& 0o066 = 0 :=
    fun p s hs => writeArtifacts_received keyMaterial respond (artifacts p) s hs
  rw [WriteMaster_eq_runFlow, WriteNode_eq_runFlow]
  exact ⟨runFlow_state_invariant _ _ hstep masterFlow _ (by simp),
    runFlow_state_invariant _ _ hstep nodeFlow _ (by simp)⟩

/-- Witness of C2: in the example run of `WriteMaster` the CA key is requested, is key
material, and its mode grants nothing to group or other. -/
theorem key_material_requests_are_owner_only_witness :
    ({ path := "etc/origin/master/ca.key", content := [], owner := "root", group := "root",
       mode := 0o600 } : ArtifactDescriptor) ∈
      (WriteMaster (writerBehaviour keyMaterialByPath exampleRespond exampleArtifacts) []).1.state ∧
    (0o600 : Nat) &&& 0o066 = 0 :=
  ⟨by decide,
   (key_material_requests_are_owner_only keyMaterialByPath exampleRespond exampleArtifacts).1
      { path := "etc/origin/master/ca.key", content := [], owner := "root", group := "root",
        mode := 0o600 } (by decide) (by decide)⟩

/-- C8 fails on the code: the scratch-directory check of `TestConfigFilePermissions` reports
an error for a declared mode of 1777 octal (and for `os.ModeSticky|0777`), and accepts only
the decimal number 1770, that is 3352 octal, which lacks six of the nine permission bits;
the error message of the check itself says 1777. -/
theorem tmp_check_rejects_octal_1777 :
    tmpCheckReports "tmp" 0o1777 = true ∧
    tmpCheckReports "tmp" (2 ^ 20 ||| 0o777) = true ∧
    tmpCheckReports "tmp" 1770 = false ∧
    (1770 : Nat) = 0o3352 ∧
    (1770 : Nat) &&& 0o777 = 0o352 := by
  decide

/-- C9: when the master, orchestrator, OpenShift, Azure and service-principal profiles of
`a` are present, `NewConfig a h e` returns a `Config` whose master has hostname `h`, port
8443 (inside the `int16` range) and the single IP `ParseIP` of the first consecutive static
IP, with external hostname `e`, the cluster credentials and the six Azure fields copied from
`a`, a serial counter at 0, empty secrets, and no certificates or kubeconfigs. -/
theorem new_config_fields {X K : Type} (ParseIP : String → IP) (zeroKubeConfig : K)
    (a : api.Properties) (h e : String)
    (mp : api.MasterProfile) (op : api.OrchestratorProfile) (oc : api.OpenShiftConfig)
    (az : api.AzProfile) (sp : api.ServicePrincipalProfile)
    (hmp : a.MasterProfile = some mp) (hop : a.OrchestratorProfile = some op)
    (hoc : op.OpenShiftConfig = some oc) (haz : a.AzProfile = some az)
    (hsp : a.ServicePrincipalProfile = some sp) :
    ∃ (c : Config X K) (m : Master X K),
      NewConfig ParseIP zeroKubeConfig a h e = some c ∧ c.Master = some m ∧
      m.Hostname = h ∧ m.Port = 8443 ∧ -(2 ^ 15) ≤ m.Port ∧ m.Port < 2 ^ 15 ∧
      m.IPs = [ParseIP mp.FirstConsecutiveStaticIP] ∧
      c.ExternalMasterHostname = e ∧
      c.ClusterUsername = oc.ClusterUsername ∧ c.ClusterPassword = oc.ClusterPassword ∧
      c.AzureConfig.TenantID = az.TenantID ∧
      c.AzureConfig.SubscriptionID = az.SubscriptionID ∧
      c.AzureConfig.AADClientID = sp.ClientID ∧
      c.AzureConfig.AADClientSecret = sp.Secret ∧
      c.AzureConfig.ResourceGroup = az.ResourceGroup ∧
      c.AzureConfig.Location = az.Location ∧
      c.serial = serial.zero ∧ c.AuthSecret = "" ∧ c.EncSecret = "" ∧
      c.cas = [] ∧ m.certs = [] ∧ m.etcdcerts = [] ∧ m.kubeconfigs = [] ∧
      c.Bootstrap = zeroKubeConfig := by
  simp only [NewConfig, hmp, hop, hoc, haz, hsp]
  refine ⟨_, _, rfl, rfl, ?_⟩
  simp [serial.zero]

/-- Witness of C9: `NewConfig` on the example properties. -/
theorem new_config_fields_witness :
    ∃ (c : Config Unit Unit) (m : Master Unit Unit),
      NewConfig exampleParseIP () exampleProperties "master-0" "master.example.com" = some c ∧
      c.Master = some m ∧
      m.Hostname = "master-0" ∧ m.Port = 8443 ∧ -(2 ^ 15) ≤ m.Port ∧ m.Port < 2 ^ 15 ∧
      m.IPs = [exampleParseIP "10.0.0.1"] ∧
      c.ExternalMasterHostname = "master.example.com" ∧
      c.ClusterUsername = "admin" ∧ c.ClusterPassword = "secret" ∧
      c.AzureConfig.TenantID = "tenant" ∧
      c.AzureConfig.SubscriptionID = "sub" ∧
      c.AzureConfig.AADClientID = "client" ∧
      c.AzureConfig.AADClientSecret = "spsecret" ∧
      c.AzureConfig.ResourceGroup = "rg" ∧
      c.AzureConfig.Location = "eastus" ∧
      c.serial = serial.zero ∧ c.AuthSecret = "" ∧ c.EncSecret = "" ∧
      c.cas = [] ∧ m.certs = [] ∧ m.etcdcerts = [] ∧ m.kubeconfigs = [] ∧
      c.Bootstrap = () :=
  new_config_fields exampleParseIP () exampleProperties "master-0" "master.example.com"
    { FirstConsecutiveStaticIP := "10.0.0.1" }
    { OpenShiftConfig := some { ClusterUsername := "admin", ClusterPassword := "secret" } }
    { ClusterUsername := "admin", ClusterPassword := "secret" }
    { TenantID := "tenant", SubscriptionID := "sub", ResourceGroup := "rg",
      Location := "eastus" }
    { ClientID := "client", Secret := "spsecret" } rfl rfl rfl rfl rfl

/-- C10 fails on the code: the key-file check of `TestConfigFilePermissions` does not report
a `.key` file recorded with mode 0666, 0644, 0660 or 0604, each of which grants a read or
write bit to group or other; it tests bit 2 (other-read) and bit 3 (group-execute), and
reports only when both are set, as for mode 0614. -/
theorem key_file_check_accepts_group_other_access :
    keyFileCheckReports "etc/origin/master/ca.key" 0o666 = false ∧
    (0o666 : Nat) &&& 0o066 ≠ 0 ∧
    keyFileCheckReports "etc/origin/master/ca.key" 0o644 = false ∧
    (0o644 : Nat) &&& 0o066 ≠ 0 ∧
    keyFileCheckReports "etc/origin/master/ca.key" 0o660 = false ∧
    (0o660 : Nat) &&& 0o066 ≠ 0 ∧
    keyFileCheckReports "etc/origin/master/ca.key" 0o604 = false ∧
    (0o604 : Nat) &&& 0o066 ≠ 0 ∧
    keyFileCheckReports "etc/origin/master/ca.key" 0o614 = true := by
  decide

end Certgen
